import Mathlib

/-!
# Meeting avatar front-end: message handling, animation tick and event channel

A shallow embedding of the two implementations of the avatar front-end,
`src/main.js` (rigged VRM model driven through expression weights) and
`src/main-procedural.js` (humanoid built from primitives), followed by the
properties established about them.

Conventions of the embedding:

* the module-level variables and the parts of the DOM and of the scene that
  the code reads or writes form an explicit state record; every function of
  the source becomes a function from state to state;
* a function that can throw returns a `Completion`: the state at the moment
  it stopped, and the exception raised, if any;
* `Date.now()`, `clock.getElapsedTime()`, the outcome of the test
  `Math.random() < 0.005`, `Math.sin`, `Math.PI` and the behaviour of the
  `WebSocket` constructor belong to the platform and are inputs;
* scene values (scales, rotations, expression weights) live in a field `K`,
  so that the code can be evaluated over `ℚ` and reasoned about over `ℝ`;
* `setTimeout` and `setInterval` add entries to a queue of pending timers,
  each with the clock time at which it falls due.
-/

namespace MeetingAvatar

/-! ## JavaScript values -/

/-- Exceptions the code can meet. -/
inductive JsError where
  | syntaxError
  | typeError
  | other (name : String)
  deriving DecidableEq, Repr

/-- A JavaScript number: a finite value other than negative zero, or one of the special values. -/
inductive JsNumber where
  | finite (q : ℚ)
  | negZero
  | posInf
  | negInf
  | nan

/-- A JavaScript value as `JSON.parse` can build it, and `undefined`. -/
inductive JsValue where
  | undefined
  | null
  | bool (b : Bool)
  | num (x : JsNumber)
  | str (s : String)
  | arr (items : List JsValue)
  | obj (fields : List (String × JsValue))

/-- The truthiness of a number: `0`, `-0` and `NaN` are falsy. -/
def JsNumber.truthy : JsNumber → Bool
  | .finite q => decide (q ≠ 0)
  | .negZero => false
  | .posInf => true
  | .negInf => true
  | .nan => false

/-- The truthiness of a value, as the operator `||` tests it. -/
def JsValue.truthy : JsValue → Bool
  | .undefined => false
  | .null => false
  | .bool b => b
  | .num x => x.truthy
  | .str s => decide (s ≠ "")
  | .arr _ => true
  | .obj _ => true

/-- The member access `v.key` for the two keys the code reads, `type` and `text`:
    a TypeError on `null` and `undefined`, the own property of an object when
    it has one, `undefined` otherwise (no prototype defines either key). -/
def JsValue.getMember (v : JsValue) (key : String) : Except JsError JsValue :=
  match v with
  | .undefined => .error .typeError
  | .null => .error .typeError
  | .obj fields =>
    match fields.lookup key with
    | some x => .ok x
    | none => .ok .undefined
  | _ => .ok .undefined

/-- The operator `a || b`. -/
def JsValue.or (a b : JsValue) : JsValue :=
  if a.truthy then a else b

/-- An inbound `event.data`, by what `JSON.parse` makes of it: text that is not
    JSON, or the text of a JSON value. -/
inductive Payload where
  | notJson
  | json (v : JsValue)

/-- The call `JSON.parse(event.data)`: throws a SyntaxError on text that is not JSON. -/
def JSONparse : Payload → Except JsError JsValue
  | .notJson => .error .syntaxError
  | .json v => .ok v

/-- The result of running a function that may throw: the state when it stopped
    and the exception that left it, if any. -/
structure Completion (σ : Type) where
  state : σ
  thrown : Option JsError

/-! ## The status indicators and the message display -/

/-- The DOM elements the code writes: the text display and the class flags of
    the indicators. `messageText` is the value last assigned to `textContent`. -/
structure Ui where
  messageText : JsValue
  messageShow : Bool
  micRecording : Bool
  agentSpeaking : Bool
  agentActive : Bool
  connectionActive : Bool
  loadingHidden : Bool

/-- The function `showMessage(text)`, the same in both files. -/
def showMessage (text : JsValue) (ui : Ui) : Ui :=
  { ui with messageText := text, messageShow := true }

/-- The function `hideMessage()`, the same in both files. -/
def hideMessage (ui : Ui) : Ui :=
  { ui with messageShow := false }

/-- What the platform supplies: the sine, the constant pi, and what the
    `WebSocket` constructor does (`some e` when it throws `e`). -/
structure Env (K : Type) where
  sin : K → K
  PI : K
  webSocketThrows : Option JsError

/-- A pending timer: the clock time at which it falls due, and its callback. -/
structure Timer (α : Type) where
  due : Int
  action : α

/-- The queue of pending timers after `setTimeout` or `setInterval` has added
    `t`: the timer joins the queue behind those that fall due no later than it. -/
def setTimer {α : Type} (t : Timer α) : List (Timer α) → List (Timer α)
  | [] => [t]
  | u :: us => if t.due < u.due then t :: u :: us else u :: setTimer t us

/-- What happens in a session of blinks: a call of `blink()`, or a turn of the
    event loop, each at a clock time. -/
inductive BlinkEvent where
  | trigger (now : Int)
  | turn (now : Int)

/-- The type tag of a decoded message: `data.type` is the string `ty`. -/
def hasType (ty : String) (data : JsValue) : Bool :=
  match data.getMember "type" with
  | .ok (.str t) => t == ty
  | _ => false

/-! ## `src/main-procedural.js` -/

namespace Procedural

/-- The materials of the file (lines 23-48); `other` stands for a material
    created in place, such as the one of the mouth. -/
inductive Material where
  | skin
  | suit
  | shirt
  | hair
  | eye
  | other
  deriving DecidableEq, Repr

/-- A scene object, by the fields the code reads or writes: the type of its
    geometry (none for a group), its material and `scale.y`. -/
structure Mesh (K : Type) where
  geometryType : Option String
  material : Material
  scaleY : K

/-- The group `avatar.head`: its rotation and its children, as references into
    the store of scene objects. -/
structure Head (K : Type) where
  rotationX : K
  rotationY : K
  children : List Nat

/-- The object `avatar`: each part is absent until `createProceduralAvatar`
    sets it. The mouth is a reference into the store of scene objects (it is
    also a child of the head); the torso is its scale, an arm its `rotation.z`. -/
structure Avatar (K : Type) where
  head : Option (Head K)
  mouth : Option Nat
  torso : Option (K × K × K)
  leftArm : Option K
  rightArm : Option K

/-- What a pending timer does when it fires: the closure of `blink` that puts
    `originalScale` back on an eye, or `connectWebSocket`. -/
inductive TimerAction (K : Type) where
  | restoreEye (eye : Nat) (originalScale : K)
  | connectWebSocket

/-- The state of the page: the module variables, the indicators, the store of
    scene objects, the pending timers, and the creation time of every
    `WebSocket` constructed so far. -/
structure State (K : Type) where
  isSpeaking : Bool
  speakingStartTime : Int
  currentExpression : String
  ui : Ui
  avatar : Avatar K
  meshes : List (Mesh K)
  timers : List (Timer (TimerAction K))
  sockets : List Int

variable {K : Type}

/-- The assignment `object.scale.y = v` on the object behind a reference. -/
def writeScaleY (v : K) : Nat → List (Mesh K) → List (Mesh K)
  | _, [] => []
  | 0, m :: ms => { m with scaleY := v } :: ms
  | n + 1, m :: ms => m :: writeScaleY v n ms

/-- The function `handleVoiceGatewayMessage(data)` of lines 365-390, at clock time `now`. -/
def handleVoiceGatewayMessage (now : Int) (s : State K) (data : JsValue) :
    Completion (State K) :=
  match data.getMember "type" with
  | .error e => ⟨s, some e⟩
  | .ok (.str "speaking_start") =>
    match data.getMember "text" with
    | .error e =>
      ⟨{ s with isSpeaking := true, speakingStartTime := now,
                ui := { s.ui with agentSpeaking := true } }, some e⟩
    | .ok text =>
      ⟨{ s with isSpeaking := true, speakingStartTime := now,
                ui := showMessage (text.or (.str "Speaking..."))
                        { s.ui with agentSpeaking := true } }, none⟩
  | .ok (.str "speaking_end") =>
    ⟨{ s with isSpeaking := false,
              ui := hideMessage { s.ui with agentSpeaking := false } }, none⟩
  | .ok (.str "listening") =>
    ⟨{ s with ui := showMessage (.str "Listening...")
                      { s.ui with micRecording := true, agentSpeaking := false } }, none⟩
  | .ok (.str "mic_off") =>
    ⟨{ s with ui := { s.ui with micRecording := false } }, none⟩
  | .ok _ => ⟨s, none⟩

/-- The handler `ws.onmessage` of lines 345-348; nothing around it catches. -/
def onmessage (now : Int) (s : State K) (eventData : Payload) : Completion (State K) :=
  match JSONparse eventData with
  | .error e => ⟨s, some e⟩
  | .ok data => handleVoiceGatewayMessage now s data

section Animation

variable [Field K]

/-- The constant `openness` of `updateLipSync` (line 280), from the elapsed seconds. -/
def mouthOpenness (env : Env K) (elapsed : K) : K :=
  (env.sin (elapsed * 15) + 1) / 2 * 0.8 + 0.2

/-- The value written to `avatar.mouth.scale.y` (line 281) for a given openness. -/
def mouthScale (openness : K) : K :=
  0.3 + openness * 0.7

/-- The function `updateLipSync(deltaTime)` of lines 274-288, at clock time `now`. -/
def updateLipSync (env : Env K) (now : Int) (_deltaTime : K) (s : State K) : State K :=
  if !s.isSpeaking then s
  else
    match s.avatar.mouth with
    | none => s
    | some mouth =>
      let elapsed : K := ((now - s.speakingStartTime : Int) : K) / 1000
      let openness := mouthOpenness env elapsed
      let meshes := writeScaleY (mouthScale openness) mouth s.meshes
      match s.avatar.head with
      | some head =>
        { s with
          meshes := meshes
          avatar := { s.avatar with
            head := some { head with
              rotationY := env.sin (elapsed * 2) * 0.05
              rotationX := env.sin (elapsed * 3) * 0.02 } } }
      | none => { s with meshes := meshes }

/-- The filter of `blink` (lines 319-322): a child with a sphere geometry and
    the eye material. A reference to nothing passes no test. -/
def isEye (meshes : List (Mesh K)) (child : Nat) : Bool :=
  match meshes[child]? with
  | some m => m.geometryType == some "SphereGeometry" && m.material == Material.eye
  | none => false

/-- The body of the `forEach` of `blink` (lines 324-330) for one eye: remember
    the scale, close the eye, and set the timer that puts the scale back. -/
def blinkEye (now : Int) (s : State K) (eye : Nat) : State K :=
  match s.meshes[eye]? with
  | none => s
  | some m =>
    { s with
      meshes := writeScaleY 0.1 eye s.meshes
      timers := setTimer ⟨now + 150, .restoreEye eye m.scaleY⟩ s.timers }

/-- The function `blink()` of lines 316-331, at clock time `now`. -/
def blink (now : Int) (s : State K) : State K :=
  match s.avatar.head with
  | none => s
  | some head => (head.children.filter (isEye s.meshes)).foldl (blinkEye now) s

/-- The function `updateIdleAnimation(time)` of lines 291-313; `blinkTrial` is
    the outcome of `Math.random() < 0.005`. -/
def updateIdleAnimation (env : Env K) (now : Int) (blinkTrial : Bool) (time : K)
    (s : State K) : State K :=
  match s.avatar.torso with
  | none => s
  | some _ =>
    let breathScale : K := 1 + env.sin (time * 2) * 0.015
    let a1 : Avatar K := { s.avatar with torso := some (breathScale, breathScale, breathScale) }
    let a2 : Avatar K :=
      match a1.leftArm, a1.rightArm with
      | some _, some _ =>
        { a1 with
          leftArm := some (0.1 + env.sin (time * 1.5) * 0.03)
          rightArm := some (-0.1 - env.sin (time * 1.5 + 1) * 0.03) }
      | _, _ => a1
    let meshes :=
      match !s.isSpeaking, a2.mouth with
      | true, some mouth => writeScaleY 0.3 mouth s.meshes
      | _, _ => s.meshes
    let s1 : State K := { s with avatar := a2, meshes := meshes }
    if blinkTrial then blink now s1 else s1

/-- The function `animate()` of lines 402-417, one tick: `time` and `deltaTime`
    are what the clock returns; the calls into the controls and the renderer
    write nothing the code reads back. -/
def animate (env : Env K) (now : Int) (blinkTrial : Bool) (time deltaTime : K)
    (s : State K) : State K :=
  if s.isSpeaking then updateLipSync env now deltaTime s
  else updateIdleAnimation env now blinkTrial time s

/-- The function `createProceduralAvatar()` of lines 124-271, by what later code
    reads: the head with its children (face, hair, two eyes, mouth), the mouth
    at scale 0.3, the torso and the two arms. -/
def createProceduralAvatar (s : State K) : State K :=
  { s with
    meshes :=
      [ ⟨some "SphereGeometry", .skin, 1⟩,
        ⟨some "SphereGeometry", .hair, 1⟩,
        ⟨some "SphereGeometry", .eye, 1⟩,
        ⟨some "SphereGeometry", .eye, 1⟩,
        ⟨some "CapsuleGeometry", .other, 0.3⟩ ]
    avatar :=
      { head := some ⟨0, 0, [0, 1, 2, 3, 4]⟩
        mouth := some 4
        torso := some (1, 1, 1)
        leftArm := some 0
        rightArm := some 0 } }

end Animation

/-! ### The event channel -/

/-- The function `connectWebSocket()` of lines 334-362, at clock time `now`:
    an exception of the constructor is caught and logged. -/
def connectWebSocket (env : Env K) (now : Int) (s : State K) : Completion (State K) :=
  match env.webSocketThrows with
  | none => ⟨{ s with sockets := s.sockets ++ [now] }, none⟩
  | some _ => ⟨s, none⟩

/-- The handler `ws.onopen` of lines 340-343. -/
def onopen (s : State K) : State K :=
  { s with ui := { s.ui with connectionActive := true } }

/-- The handler `ws.onclose` of lines 350-354, at clock time `now`. -/
def onclose (now : Int) (s : State K) : State K :=
  { s with
    ui := { s.ui with connectionActive := false }
    timers := setTimer ⟨now + 5000, .connectWebSocket⟩ s.timers }

/-- The handler `ws.onerror` of lines 356-358: it logs. -/
def onerror (s : State K) : State K :=
  s

/-- The callback of a timer, run at clock time `now`. -/
def timerCallback (env : Env K) (now : Int) (s : State K) : TimerAction K → State K
  | .restoreEye eye originalScale => { s with meshes := writeScaleY originalScale eye s.meshes }
  | .connectWebSocket => (connectWebSocket env now s).state

/-- One turn of the event loop at clock time `now`: the pending timers that are
    due leave the queue and their callbacks run, in the order of the queue. -/
def runTimers (env : Env K) (now : Int) (s : State K) : State K :=
  (s.timers.filter (fun t => decide (t.due ≤ now))).foldl
    (fun st t => timerCallback env now st t.action)
    { s with timers := s.timers.filter (fun t => !decide (t.due ≤ now)) }

/-- Whether a pending timer is a call of `connectWebSocket`. -/
def isReconnect (t : Timer (TimerAction K)) : Bool :=
  match t.action with
  | .connectWebSocket => true
  | .restoreEye _ _ => false

/-- A session of the channel: a first call of `connectWebSocket` at clock time
    `start`; then, for each entry of `closes` in turn, the close event of the
    socket at that time, and the turn of the event loop 5000 ms later. -/
def reconnectRun (env : Env K) (start : Int) (closes : List Int) (s : State K) : State K :=
  closes.foldl (fun st t => runTimers env (t + 5000) (onclose t st))
    (connectWebSocket env start s).state

/-- One event of a session of blinks. -/
def blinkStep [Field K] (env : Env K) (s : State K) : BlinkEvent → State K
  | .trigger now => blink now s
  | .turn now => runTimers env now s

/-- A session of blinks: the events one after the other. -/
def blinkSession [Field K] (env : Env K) (s : State K) (events : List BlinkEvent) : State K :=
  events.foldl (blinkStep env) s

/-- The module-level declarations of lines 6-13, over a page whose indicators are `ui`. -/
def initialState (ui : Ui) : State K :=
  { isSpeaking := false
    speakingStartTime := 0
    currentExpression := "neutral"
    ui := ui
    avatar := ⟨none, none, none, none, none⟩
    meshes := []
    timers := []
    sockets := [] }

/-- The decoded messages of a session, each with the clock time of its
    arrival, go through `handleVoiceGatewayMessage` one after the other; an
    exception ends the handling of its message only. -/
def processAll (s : State K) (msgs : List (Int × JsValue)) : State K :=
  msgs.foldl (fun st m => (handleVoiceGatewayMessage m.1 st m.2).state) s

end Procedural

/-! ## `src/main.js` -/

namespace Main

/-- The expression manager of the model, by the weights the code sets: the
    value last passed to `setValue` for `aa` and for `blink`. -/
structure ExpressionManager (K : Type) where
  aa : K
  blink : K

/-- The humanoid of the model: the uniform scale of its chest bone, absent when
    `getNormalizedBoneNode` finds none. -/
structure Humanoid (K : Type) where
  chest : Option K

/-- The loaded model `currentVrm`; either part may be missing. -/
structure Vrm (K : Type) where
  expressionManager : Option (ExpressionManager K)
  humanoid : Option (Humanoid K)

/-- What a pending timer does when it fires: the interval callback of a blink
    that began at `startTime`, or `connectWebSocket`. -/
inductive TimerAction where
  | blinkInterval (startTime : Int)
  | connectWebSocket

/-- The state of the page: the module variables, the indicators, the model, the
    pending timers, and the creation time of every `WebSocket` constructed so far. -/
structure State (K : Type) where
  isSpeaking : Bool
  speakingStartTime : Int
  currentExpression : String
  ui : Ui
  currentVrm : Option (Vrm K)
  timers : List (Timer TimerAction)
  sockets : List Int

variable {K : Type}

/-- The module variable `reconnectInterval` (line 18); nothing assigns it again. -/
def reconnectInterval : Int := 5000

/-- The function `handleVoiceGatewayMessage(data)` of lines 216-251, at clock time `now`. -/
def handleVoiceGatewayMessage (now : Int) (s : State K) (data : JsValue) :
    Completion (State K) :=
  match data.getMember "type" with
  | .error e => ⟨s, some e⟩
  | .ok (.str "speaking_start") =>
    match data.getMember "text" with
    | .error e =>
      ⟨{ s with isSpeaking := true, speakingStartTime := now,
                ui := { s.ui with agentSpeaking := true } }, some e⟩
    | .ok text =>
      ⟨{ s with isSpeaking := true, speakingStartTime := now,
                ui := showMessage (text.or (.str "Speaking..."))
                        { s.ui with agentSpeaking := true } }, none⟩
  | .ok (.str "speaking_end") =>
    ⟨{ s with isSpeaking := false,
              ui := hideMessage { s.ui with agentSpeaking := false } }, none⟩
  | .ok (.str "listening") =>
    ⟨{ s with ui := showMessage (.str "Listening...")
                      { s.ui with micRecording := true, agentSpeaking := false } }, none⟩
  | .ok (.str "thinking") =>
    ⟨{ s with ui := showMessage (.str "Thinking...")
                      { s.ui with micRecording := false, agentSpeaking := false } }, none⟩
  | .ok (.str "message") =>
    match data.getMember "text" with
    | .error e => ⟨s, some e⟩
    | .ok text => ⟨{ s with ui := showMessage text s.ui }, none⟩
  | .ok (.str "mic_off") =>
    ⟨{ s with ui := { s.ui with micRecording := false } }, none⟩
  | .ok _ => ⟨s, none⟩

/-- The handler `ws.onmessage` of lines 197-200; nothing around it catches. -/
def onmessage (now : Int) (s : State K) (eventData : Payload) : Completion (State K) :=
  match JSONparse eventData with
  | .error e => ⟨s, some e⟩
  | .ok data => handleVoiceGatewayMessage now s data

/-- The decoded messages of a session, each with the clock time of its
    arrival, go through `handleVoiceGatewayMessage` one after the other; an
    exception ends the handling of its message only. -/
def processAll (s : State K) (msgs : List (Int × JsValue)) : State K :=
  msgs.foldl (fun st m => (handleVoiceGatewayMessage m.1 st m.2).state) s

section Animation

variable [Field K]

/-- The constant `mouthOpenness` of `updateLipSync` (line 272), from the elapsed seconds. -/
def mouthOpenness (env : Env K) (elapsed : K) : K :=
  (env.sin (elapsed * 10) + 1) / 2 * 0.5

/-- The function `updateLipSync(deltaTime)` of lines 265-278, at clock time `now`. -/
def updateLipSync (env : Env K) (now : Int) (_deltaTime : K) (s : State K) : State K :=
  match s.currentVrm with
  | none => s
  | some vrm =>
    if !s.isSpeaking then s
    else
      let elapsed : K := ((now - s.speakingStartTime : Int) : K) / 1000
      match vrm.expressionManager with
      | some em =>
        let em1 : ExpressionManager K := { em with aa := mouthOpenness env elapsed }
        { s with currentVrm := some { vrm with expressionManager := some em1 } }
      | none => s

/-- The function `blink()` of lines 302-320, at clock time `now`: it starts an
    interval of 16 ms. -/
def blink (now : Int) (s : State K) : State K :=
  match s.currentVrm with
  | none => s
  | some vrm =>
    match vrm.expressionManager with
    | none => s
    | some _ => { s with timers := setTimer ⟨now + 16, .blinkInterval now⟩ s.timers }

/-- The function `updateIdleAnimation(deltaTime)` of lines 281-299, at clock
    time `now`; `blinkTrial` is the outcome of `Math.random() < 0.005`. -/
def updateIdleAnimation (env : Env K) (now : Int) (blinkTrial : Bool) (_deltaTime : K)
    (s : State K) : State K :=
  match s.currentVrm with
  | none => s
  | some vrm =>
    let time : K := (now : K) / 1000
    let breathScale : K := 1 + env.sin (time * 2) * 0.02
    let vrm1 : Vrm K :=
      match vrm.humanoid with
      | some h =>
        match h.chest with
        | some _ => { vrm with humanoid := some { h with chest := some breathScale } }
        | none => vrm
      | none => vrm
    let s1 : State K := { s with currentVrm := some vrm1 }
    if blinkTrial then blink now s1 else s1

/-- The function `animate()` of lines 323-345, one tick: `deltaTime` is what the
    clock returns; `currentVrm.update` and the calls into the controls and the
    renderer leave the weights and scales set by the code as they are. -/
def animate (env : Env K) (now : Int) (blinkTrial : Bool) (deltaTime : K)
    (s : State K) : State K :=
  if s.isSpeaking then updateLipSync env now deltaTime s
  else updateIdleAnimation env now blinkTrial deltaTime s

/-- The interval callback of `blink` (lines 308-319), run at clock time `now`
    for a blink that began at `startTime`: the new state, and whether the
    interval goes on. -/
def blinkCallback (env : Env K) (now startTime : Int) (s : State K) : State K × Bool :=
  match s.currentVrm with
  | none => (s, true)
  | some vrm =>
    match vrm.expressionManager with
    | none => (s, true)
    | some em =>
      let elapsed : Int := now - startTime
      if 1 ≤ (elapsed : ℚ) / 150 then
        let em1 : ExpressionManager K := { em with blink := 0 }
        ({ s with currentVrm := some { vrm with expressionManager := some em1 } }, false)
      else
        let progress : K := (elapsed : K) / 150
        let em1 : ExpressionManager K := { em with blink := env.sin (progress * env.PI) }
        ({ s with currentVrm := some { vrm with expressionManager := some em1 } }, true)

end Animation

/-! ### The event channel -/

/-- The function `connectWebSocket()` of lines 187-213, at clock time `now`:
    an exception of the constructor leaves the function. -/
def connectWebSocket (env : Env K) (now : Int) (s : State K) : Completion (State K) :=
  match env.webSocketThrows with
  | none => ⟨{ s with sockets := s.sockets ++ [now] }, none⟩
  | some e => ⟨s, some e⟩

/-- The handler `ws.onopen` of lines 192-195. -/
def onopen (s : State K) : State K :=
  { s with ui := { s.ui with connectionActive := true } }

/-- The handler `ws.onclose` of lines 202-208, at clock time `now`. -/
def onclose (now : Int) (s : State K) : State K :=
  { s with
    ui := { s.ui with connectionActive := false }
    timers := setTimer ⟨now + reconnectInterval, .connectWebSocket⟩ s.timers }

/-- The handler `ws.onerror` of lines 210-212: it logs. -/
def onerror (s : State K) : State K :=
  s

/-- The callback of a timer, run at clock time `now`; an interval that goes on
    is set again 16 ms later. -/
def timerCallback [Field K] (env : Env K) (now : Int) (s : State K) : TimerAction → State K
  | .blinkInterval startTime =>
    let r := blinkCallback env now startTime s
    if r.2 then
      { r.1 with timers := setTimer ⟨now + 16, .blinkInterval startTime⟩ r.1.timers }
    else r.1
  | .connectWebSocket => (connectWebSocket env now s).state

/-- One turn of the event loop at clock time `now`: the pending timers that are
    due leave the queue and their callbacks run, in the order of the queue. -/
def runTimers [Field K] (env : Env K) (now : Int) (s : State K) : State K :=
  (s.timers.filter (fun t => decide (t.due ≤ now))).foldl
    (fun st t => timerCallback env now st t.action)
    { s with timers := s.timers.filter (fun t => !decide (t.due ≤ now)) }

/-- Whether a pending timer is a call of `connectWebSocket`. -/
def isReconnect (t : Timer TimerAction) : Bool :=
  match t.action with
  | .connectWebSocket => true
  | .blinkInterval _ => false

/-- A session of the channel: a first call of `connectWebSocket` at clock time
    `start`; then, for each entry of `closes` in turn, the close event of the
    socket at that time, and the turn of the event loop 5000 ms later. -/
def reconnectRun [Field K] (env : Env K) (start : Int) (closes : List Int) (s : State K) :
    State K :=
  closes.foldl (fun st t => runTimers env (t + 5000) (onclose t st))
    (connectWebSocket env start s).state

/-- Whether a pending timer is the interval of a blink. -/
def isBlinkTimer (t : Timer TimerAction) : Bool :=
  match t.action with
  | .blinkInterval _ => true
  | .connectWebSocket => false

/-- The weight of the expression `blink`, when the model has an expression manager. -/
def blinkWeight (s : State K) : Option K :=
  (s.currentVrm.bind Vrm.expressionManager).map ExpressionManager.blink

/-- One event of a session of blinks. -/
def blinkStep [Field K] (env : Env K) (s : State K) : BlinkEvent → State K
  | .trigger now => blink now s
  | .turn now => runTimers env now s

/-- A session of blinks: the events one after the other. -/
def blinkSession [Field K] (env : Env K) (s : State K) (events : List BlinkEvent) : State K :=
  events.foldl (blinkStep env) s

/-- The eyes are at rest: when no interval of a blink is pending, the weight of
    the expression `blink`, if there is one, is 0. -/
def BlinkSettled [Field K] (s : State K) : Prop :=
  s.timers.filter isBlinkTimer = [] → ∀ w, blinkWeight s = some w → w = 0

/-- The module-level declarations of lines 6-18, over a page whose indicators are `ui`. -/
def initialState (ui : Ui) : State K :=
  { isSpeaking := false
    speakingStartTime := 0
    currentExpression := "neutral"
    ui := ui
    currentVrm := none
    timers := []
    sockets := [] }

/-- The weight of the expression `aa`, when the model has an expression manager. -/
def aaWeight (s : State K) : Option K :=
  (s.currentVrm.bind Vrm.expressionManager).map ExpressionManager.aa

/-- What the loader hands to the callbacks of `loadVRMModel`: a file that
    parsed, with its field `gltf.userData.vrm` (absent unless a plugin of the
    loader put a model there; the file registers none), or an error. -/
inductive LoadResult (K : Type) where
  | parsed (vrm : Option (Vrm K))
  | failed

/-- The function `createPlaceholderAvatar()` of lines 140-184, by what the code
    reads back: the loading element is hidden and the agent indicator active;
    the group it builds goes to the scene only. -/
def createPlaceholderAvatar (s : State K) : State K :=
  { s with ui := { s.ui with loadingHidden := true, agentActive := true } }

/-- The function `loadVRMModel()` of lines 96-137 with the callback the loader
    runs: on a parsed file, `currentVrm` is assigned only when
    `gltf.userData.vrm` is there; on an error the placeholder is created. -/
def loadVRMModel (r : LoadResult K) (s : State K) : State K :=
  match r with
  | .parsed (some vrm) =>
    { s with
      currentVrm := some vrm
      ui := { s.ui with loadingHidden := true, agentActive := true } }
  | .parsed none => s
  | .failed => createPlaceholderAvatar s

/-- What can happen on the page once `init()` has run: a message on the
    socket, a frame of `animate`, the open, close and error events of the
    socket, and a turn of the event loop for the pending timers. -/
inductive PageEvent (K : Type) where
  | message (now : Int) (eventData : Payload)
  | frame (now : Int) (blinkTrial : Bool) (deltaTime : K)
  | socketOpen
  | socketClose (now : Int)
  | socketError
  | turn (now : Int)

/-- One event of the page. -/
def pageStep [Field K] (env : Env K) (s : State K) : PageEvent K → State K
  | .message now eventData => (onmessage now s eventData).state
  | .frame now blinkTrial deltaTime => animate env now blinkTrial deltaTime s
  | .socketOpen => onopen s
  | .socketClose now => onclose now s
  | .socketError => onerror s
  | .turn now => runTimers env now s

/-- The events of the page one after the other. -/
def pageRun [Field K] (env : Env K) (s : State K) (events : List (PageEvent K)) : State K :=
  events.foldl (pageStep env) s

end Main

/-! ## The speaking invariant, as stated and as the code has it -/

/-- The sequence holds a speaking_start message after which comes no message
    whose type is among `stoppers`. -/
def StartedAndNot (stoppers : List String) (msgs : List (Int × JsValue)) : Prop :=
  ∃ pre m post, msgs = pre ++ m :: post ∧ hasType "speaking_start" m.2 = true ∧
    ∀ x ∈ post, ∀ ty ∈ stoppers, hasType ty x.2 = false

/-- The condition of the invariant in the words of the specification: a
    speaking_start with no speaking_end, listening or thinking after it. -/
def SpecSpeaking (msgs : List (Int × JsValue)) : Prop :=
  StartedAndNot ["speaking_end", "listening", "thinking"] msgs

/-- The condition the code realises: a speaking_start with no speaking_end after it. -/
def StartNotEnded (msgs : List (Int × JsValue)) : Prop :=
  StartedAndNot ["speaking_end"] msgs

/-! ## Sample inputs -/

/-- The message `{type: "speaking_start", text: "Hello"}`. -/
def helloStart : JsValue :=
  .obj [("type", .str "speaking_start"), ("text", .str "Hello")]

/-- A page whose indicators are all off and whose display is empty. -/
def blankUi : Ui :=
  ⟨.str "", false, false, false, false, false, false⟩

/-- The message `{type: "speaking_end"}`. -/
def speakingEnd : JsValue :=
  .obj [("type", .str "speaking_end")]

/-- The message `{type: "listening"}`. -/
def listeningMessage : JsValue :=
  .obj [("type", .str "listening")]

/-- A page of `main-procedural.js` once `createProceduralAvatar` has run. -/
def builtAvatar : Procedural.State ℚ :=
  Procedural.createProceduralAvatar (Procedural.initialState blankUi)

/-- The message `{type: "thinking"}`. -/
def thinkingMessage : JsValue :=
  .obj [("type", .str "thinking")]

/-- A platform for evaluating the code at clock time 0, where every sine the
    code takes is the sine of 0; the constructor of `WebSocket` does not throw. -/
def platformAtZero : Env ℚ :=
  ⟨fun _ => 0, 355 / 113, none⟩

/-- The page of `main.js` once the loader has parsed `/models/avatar.vrm`: no
    plugin is registered on the loader, so `gltf.userData.vrm` is absent. -/
def parsedPage : Main.State ℚ :=
  Main.loadVRMModel (.parsed none) (Main.initialState blankUi)

/-- The run of `main.js` behind C6, on that page: a speaking_start, one frame, a
    speaking_end, then one idle frame, all at clock time 0. -/
def speakThenIdle : Main.State ℚ :=
  Main.pageRun platformAtZero parsedPage
    [.message 0 (.json helloStart), .frame 0 false 0,
     .message 0 (.json speakingEnd), .frame 0 false 0]

/-- A platform whose `WebSocket` constructor throws. -/
def platformWithoutSocket : Env ℚ :=
  ⟨fun _ => 0, 355 / 113, some (.other "SecurityError")⟩

/-- The case labels of the switch of `handleVoiceGatewayMessage` in `main.js`
    (lines 218-247), the message types of the protocol; the switch of
    `main-procedural.js` has four of them. -/
def recognizedTypes : List String :=
  ["speaking_start", "speaking_end", "listening", "thinking", "mic_off", "message"]

/-- The message `{type: "foo"}`. -/
def fooMessage : JsValue :=
  .obj [("type", .str "foo")]

/-- Two blinks 100 ms apart, the second inside the 150 ms of the first, and the
    turns of the event loop at which their callbacks fall due or end. -/
def overlappingBlinks : List BlinkEvent :=
  [.trigger 0, .trigger 100, .turn 150, .turn 250]

/-! ## Properties -/

section Properties

variable {K : Type}

/-- A value that has one member has every member: only `null` and `undefined` throw. -/
theorem getMember_ok_of_ok {v x : JsValue} {key : String} (key2 : String)
    (h : v.getMember key = .ok x) : ∃ y, v.getMember key2 = .ok y := by
  cases v with
  | undefined => simp [JsValue.getMember] at h
  | null => simp [JsValue.getMember] at h
  | obj fields =>
    simp only [JsValue.getMember]
    cases fields.lookup key2 with
    | none => exact ⟨_, rfl⟩
    | some y => exact ⟨_, rfl⟩
  | bool b => exact ⟨_, rfl⟩
  | num n => exact ⟨_, rfl⟩
  | str t => exact ⟨_, rfl⟩
  | arr items => exact ⟨_, rfl⟩

/-- C1: in both implementations, for every prior state and every message whose
    type is speaking_start, with or without a text, handleVoiceGatewayMessage
    run at clock time now completes and leaves isSpeaking true and
    speakingStartTime equal to now. -/
theorem speaking_start_sets_flag_and_time (now : Int) (data : JsValue)
    (h : data.getMember "type" = .ok (.str "speaking_start")) :
    (∀ s : Procedural.State K,
      (Procedural.handleVoiceGatewayMessage now s data).thrown = none ∧
      (Procedural.handleVoiceGatewayMessage now s data).state.isSpeaking = true ∧
      (Procedural.handleVoiceGatewayMessage now s data).state.speakingStartTime = now) ∧
    (∀ s : Main.State K,
      (Main.handleVoiceGatewayMessage now s data).thrown = none ∧
      (Main.handleVoiceGatewayMessage now s data).state.isSpeaking = true ∧
      (Main.handleVoiceGatewayMessage now s data).state.speakingStartTime = now) := by
  obtain ⟨text, ht⟩ := getMember_ok_of_ok "text" h
  constructor
  · intro s
    simp [Procedural.handleVoiceGatewayMessage, h, ht]
  · intro s
    simp [Main.handleVoiceGatewayMessage, h, ht]

/-- The instance of C1 at the message with the text Hello, arriving at clock time 1234. -/
theorem speaking_start_sets_flag_and_time_witness :
    helloStart.getMember "type" = .ok (.str "speaking_start") ∧
    (Procedural.handleVoiceGatewayMessage 1234
      (Procedural.initialState blankUi : Procedural.State ℚ) helloStart).state.speakingStartTime
      = 1234 :=
  ⟨rfl, ((speaking_start_sets_flag_and_time 1234 helloStart rfl).1 _).2.2⟩

/-- C2: in both implementations, for every prior state, handling a speaking_end
    message completes with isSpeaking false, and handling a second speaking_end
    right after it, at whatever clock time, gives back exactly the state and
    completion of the first: every module variable, every indicator flag and
    the rest of the state are the same. -/
theorem speaking_end_clears_flag_and_is_idempotent (now1 now2 : Int) (d1 d2 : JsValue)
    (h1 : d1.getMember "type" = .ok (.str "speaking_end"))
    (h2 : d2.getMember "type" = .ok (.str "speaking_end")) :
    (∀ s : Procedural.State K,
      (Procedural.handleVoiceGatewayMessage now1 s d1).thrown = none ∧
      (Procedural.handleVoiceGatewayMessage now1 s d1).state.isSpeaking = false ∧
      Procedural.handleVoiceGatewayMessage now2
          (Procedural.handleVoiceGatewayMessage now1 s d1).state d2
        = Procedural.handleVoiceGatewayMessage now1 s d1) ∧
    (∀ s : Main.State K,
      (Main.handleVoiceGatewayMessage now1 s d1).thrown = none ∧
      (Main.handleVoiceGatewayMessage now1 s d1).state.isSpeaking = false ∧
      Main.handleVoiceGatewayMessage now2
          (Main.handleVoiceGatewayMessage now1 s d1).state d2
        = Main.handleVoiceGatewayMessage now1 s d1) := by
  constructor
  · intro s
    simp [Procedural.handleVoiceGatewayMessage, h1, h2, hideMessage]
  · intro s
    simp [Main.handleVoiceGatewayMessage, h1, h2, hideMessage]

/-- The instance of C2 at two speaking_end messages that follow a speaking_start. -/
theorem speaking_end_clears_flag_and_is_idempotent_witness :
    speakingEnd.getMember "type" = .ok (.str "speaking_end") ∧
    (Main.handleVoiceGatewayMessage 30
        (Main.handleVoiceGatewayMessage 20
          (Main.handleVoiceGatewayMessage 10
            (Main.initialState blankUi : Main.State ℚ) helloStart).state speakingEnd).state
        speakingEnd
      = Main.handleVoiceGatewayMessage 20
          (Main.handleVoiceGatewayMessage 10
            (Main.initialState blankUi : Main.State ℚ) helloStart).state speakingEnd) :=
  ⟨rfl, ((speaking_end_clears_flag_and_is_idempotent 20 30 speakingEnd speakingEnd rfl rfl).2 _).2.2⟩

/-- The tag test agrees with the member access the handlers switch on. -/
theorem hasType_iff (ty : String) (data : JsValue) :
    hasType ty data = true ↔ data.getMember "type" = .ok (.str ty) := by
  unfold hasType
  split
  · next t h => simp [h]
  · next h =>
    constructor
    · intro h'
      exact absurd h' (by simp)
    · intro h'
      exact absurd h' (h ty)

/-- A message has one type only. -/
theorem hasType_unique {ty ty2 : String} {data : JsValue} (hne : ty ≠ ty2)
    (h : hasType ty data = true) : hasType ty2 data = false := by
  cases h2 : hasType ty2 data with
  | false => rfl
  | true =>
    rw [hasType_iff] at h h2
    rw [h] at h2
    simp only [Except.ok.injEq, JsValue.str.injEq] at h2
    exact absurd h2 hne

/-- A sequence that begins with `m` has an open speaking_start when `m` is one
    and nothing after it stops it, or when the rest has one. -/
theorem startedAndNot_cons (stoppers : List String) (m : Int × JsValue)
    (ms : List (Int × JsValue)) :
    StartedAndNot stoppers (m :: ms) ↔
      (hasType "speaking_start" m.2 = true ∧
        ∀ x ∈ ms, ∀ ty ∈ stoppers, hasType ty x.2 = false) ∨
      StartedAndNot stoppers ms := by
  constructor
  · rintro ⟨pre, m', post, heq, hs, hp⟩
    cases pre with
    | nil =>
      simp only [List.nil_append, List.cons.injEq] at heq
      obtain ⟨rfl, rfl⟩ := heq
      exact Or.inl ⟨hs, hp⟩
    | cons p pre =>
      simp only [List.cons_append, List.cons.injEq] at heq
      exact Or.inr ⟨pre, m', post, heq.2, hs, hp⟩
  · rintro (⟨hs, hp⟩ | ⟨pre, m', post, heq, hs, hp⟩)
    · exact ⟨[], m, ms, rfl, hs, hp⟩
    · exact ⟨m :: pre, m', post, by simp [heq], hs, hp⟩

/-- No message, no speaking_start. -/
theorem startedAndNot_nil (stoppers : List String) : ¬ StartedAndNot stoppers [] := by
  rintro ⟨pre, m, post, heq, _, _⟩
  cases pre <;> simp at heq

/-- The speaking flag along a run, for any step function that sets the flag on
    speaking_start, clears it on speaking_end and keeps it otherwise. -/
theorem speaking_after_run {σ : Type} (isSp : σ → Bool) (step : σ → Int × JsValue → σ)
    (hstart : ∀ s m, hasType "speaking_start" m.2 = true → isSp (step s m) = true)
    (hend : ∀ s m, hasType "speaking_end" m.2 = true → isSp (step s m) = false)
    (hother : ∀ s m, hasType "speaking_start" m.2 = false →
      hasType "speaking_end" m.2 = false → isSp (step s m) = isSp s)
    (msgs : List (Int × JsValue)) (s : σ) :
    isSp (msgs.foldl step s) = true ↔
      StartNotEnded msgs ∨
        (isSp s = true ∧ ∀ x ∈ msgs, hasType "speaking_end" x.2 = false) := by
  unfold StartNotEnded
  induction msgs generalizing s with
  | nil => simp [startedAndNot_nil]
  | cons m ms ih =>
    rw [List.foldl_cons, ih, startedAndNot_cons]
    simp only [List.mem_singleton, forall_eq, List.mem_cons, forall_eq_or_imp,
      List.not_mem_nil, IsEmpty.forall_iff, implies_true, and_true]
    cases hs : hasType "speaking_start" m.2 with
    | true =>
      have he : hasType "speaking_end" m.2 = false := hasType_unique (by decide) hs
      rw [hstart s m hs, he]
      tauto
    | false =>
      cases he : hasType "speaking_end" m.2 with
      | true =>
        rw [hend s m he]
        simp
      | false =>
        rw [hother s m hs he]
        simp

/-- The speaking flag after one message, in `main-procedural.js`. -/
theorem procedural_isSpeaking_step (now : Int) (s : Procedural.State K) (data : JsValue) :
    (Procedural.handleVoiceGatewayMessage now s data).state.isSpeaking =
      if hasType "speaking_start" data then true
      else if hasType "speaking_end" data then false
      else s.isSpeaking := by
  unfold Procedural.handleVoiceGatewayMessage
  split
  · next e h => simp [hasType, h]
  · next h =>
    have hs : hasType "speaking_start" data = true := (hasType_iff _ _).2 h
    split <;> simp [hs]
  · next h => simp [hasType, h]
  · next h => simp [hasType, h]
  · next h => simp [hasType, h]
  · next x h1 h2 h3 h4 h =>
    have hs : hasType "speaking_start" data = false := by
      cases hh : hasType "speaking_start" data with
      | false => rfl
      | true => rw [hasType_iff, h] at hh; exact absurd (Except.ok.inj hh) h1
    have he : hasType "speaking_end" data = false := by
      cases hh : hasType "speaking_end" data with
      | false => rfl
      | true => rw [hasType_iff, h] at hh; exact absurd (Except.ok.inj hh) h2
    simp [hs, he]

/-- The speaking flag after one message, in `main.js`. -/
theorem main_isSpeaking_step (now : Int) (s : Main.State K) (data : JsValue) :
    (Main.handleVoiceGatewayMessage now s data).state.isSpeaking =
      if hasType "speaking_start" data then true
      else if hasType "speaking_end" data then false
      else s.isSpeaking := by
  unfold Main.handleVoiceGatewayMessage
  split
  · next e h => simp [hasType, h]
  · next h =>
    have hs : hasType "speaking_start" data = true := (hasType_iff _ _).2 h
    split <;> simp [hs]
  · next h => simp [hasType, h]
  · next h => simp [hasType, h]
  · next h => simp [hasType, h]
  · next h => split <;> simp [hasType, h]
  · next h => simp [hasType, h]
  · next x h1 h2 h3 h4 h5 h6 h =>
    have hs : hasType "speaking_start" data = false := by
      cases hh : hasType "speaking_start" data with
      | false => rfl
      | true => rw [hasType_iff, h] at hh; exact absurd (Except.ok.inj hh) h1
    have he : hasType "speaking_end" data = false := by
      cases hh : hasType "speaking_end" data with
      | false => rfl
      | true => rw [hasType_iff, h] at hh; exact absurd (Except.ok.inj hh) h2
    simp [hs, he]

/-- C3, as stated, fails: after a speaking_start and then a listening message,
    both implementations still have isSpeaking true, although a listening
    message came after the speaking_start. -/
theorem speaking_invariant_as_stated_fails :
    (Procedural.processAll (Procedural.initialState blankUi : Procedural.State ℚ)
        [(0, helloStart), (1, listeningMessage)]).isSpeaking = true ∧
    (Main.processAll (Main.initialState blankUi : Main.State ℚ)
        [(0, helloStart), (1, listeningMessage)]).isSpeaking = true ∧
    ¬ SpecSpeaking [(0, helloStart), (1, listeningMessage)] := by
  refine ⟨rfl, rfl, ?_⟩
  rintro ⟨pre, m, post, heq, hs, hp⟩
  cases pre with
  | nil =>
    simp only [List.nil_append, List.cons.injEq] at heq
    obtain ⟨-, rfl⟩ := heq
    have := hp (1, listeningMessage) (by simp) "listening" (by simp)
    exact absurd this (by decide)
  | cons p pre =>
    cases pre with
    | nil =>
      simp only [List.cons_append, List.nil_append, List.cons.injEq] at heq
      obtain ⟨-, rfl, -⟩ := heq
      exact absurd hs (by decide)
    | cons q pre =>
      simp only [List.cons_append, List.cons.injEq] at heq
      have h3 := heq.2.2
      cases pre <;> simp at h3

/-- C3, amended: in both implementations, for every finite sequence of messages
    handled from the initial state, isSpeaking ends true if and only if the
    sequence holds a speaking_start message after which no speaking_end
    message comes; listening and thinking messages do not clear the flag. -/
theorem speaking_iff_start_not_ended (ui : Ui) (msgs : List (Int × JsValue)) :
    ((Procedural.processAll (Procedural.initialState ui : Procedural.State K) msgs).isSpeaking
        = true ↔ StartNotEnded msgs) ∧
    ((Main.processAll (Main.initialState ui : Main.State K) msgs).isSpeaking
        = true ↔ StartNotEnded msgs) := by
  constructor
  · unfold Procedural.processAll
    rw [speaking_after_run Procedural.State.isSpeaking
      (fun st m => (Procedural.handleVoiceGatewayMessage m.1 st m.2).state)
      (fun s m h => by simp [procedural_isSpeaking_step, h])
      (fun s m h => by simp [procedural_isSpeaking_step, h,
        (hasType_unique (by decide) h : hasType "speaking_start" m.2 = false)])
      (fun s m h1 h2 => by simp [procedural_isSpeaking_step, h1, h2])]
    simp [Procedural.initialState]
  · unfold Main.processAll
    rw [speaking_after_run Main.State.isSpeaking
      (fun st m => (Main.handleVoiceGatewayMessage m.1 st m.2).state)
      (fun s m h => by simp [main_isSpeaking_step, h])
      (fun s m h => by simp [main_isSpeaking_step, h,
        (hasType_unique (by decide) h : hasType "speaking_start" m.2 = false)])
      (fun s m h1 h2 => by simp [main_isSpeaking_step, h1, h2])]
    simp [Main.initialState]

/-- C4, as stated, fails: on text that is not JSON the handler raises a
    SyntaxError, and on the text `null` it raises a TypeError, in both
    implementations; neither run completes normally. -/
theorem malformed_payload_does_not_complete :
    (Procedural.onmessage 0 (Procedural.initialState blankUi : Procedural.State ℚ)
        Payload.notJson).thrown = some JsError.syntaxError ∧
    (Procedural.onmessage 0 (Procedural.initialState blankUi : Procedural.State ℚ)
        (Payload.json JsValue.null)).thrown = some JsError.typeError ∧
    (Main.onmessage 0 (Main.initialState blankUi : Main.State ℚ)
        Payload.notJson).thrown = some JsError.syntaxError ∧
    (Main.onmessage 0 (Main.initialState blankUi : Main.State ℚ)
        (Payload.json JsValue.null)).thrown = some JsError.typeError :=
  ⟨rfl, rfl, rfl, rfl⟩

/-- C4, amended: in both implementations, for every prior state, the onmessage
    handler raises a SyntaxError on a payload that is not JSON and a TypeError
    on a payload that decodes to null, and the exception leaves the handler
    with the whole state as it was, so isSpeaking, speakingStartTime and
    currentExpression are unchanged; a payload that decodes to a boolean, a
    number, a string or an array completes without raising and changes nothing. -/
theorem malformed_payload_raises_and_keeps_state (now : Int) :
    (∀ s : Procedural.State K,
      Procedural.onmessage now s Payload.notJson = ⟨s, some JsError.syntaxError⟩ ∧
      Procedural.onmessage now s (Payload.json JsValue.null) = ⟨s, some JsError.typeError⟩ ∧
      (∀ b, Procedural.onmessage now s (Payload.json (JsValue.bool b)) = ⟨s, none⟩) ∧
      (∀ x, Procedural.onmessage now s (Payload.json (JsValue.num x)) = ⟨s, none⟩) ∧
      (∀ t, Procedural.onmessage now s (Payload.json (JsValue.str t)) = ⟨s, none⟩) ∧
      (∀ l, Procedural.onmessage now s (Payload.json (JsValue.arr l)) = ⟨s, none⟩)) ∧
    (∀ s : Main.State K,
      Main.onmessage now s Payload.notJson = ⟨s, some JsError.syntaxError⟩ ∧
      Main.onmessage now s (Payload.json JsValue.null) = ⟨s, some JsError.typeError⟩ ∧
      (∀ b, Main.onmessage now s (Payload.json (JsValue.bool b)) = ⟨s, none⟩) ∧
      (∀ x, Main.onmessage now s (Payload.json (JsValue.num x)) = ⟨s, none⟩) ∧
      (∀ t, Main.onmessage now s (Payload.json (JsValue.str t)) = ⟨s, none⟩) ∧
      (∀ l, Main.onmessage now s (Payload.json (JsValue.arr l)) = ⟨s, none⟩)) := by
  constructor
  · intro s
    refine ⟨rfl, rfl, fun _ => rfl, fun _ => rfl, fun _ => rfl, fun _ => rfl⟩
  · intro s
    refine ⟨rfl, rfl, fun _ => rfl, fun _ => rfl, fun _ => rfl, fun _ => rfl⟩

/-- Reading back the object just written: its `scale.y` is the value assigned. -/
theorem writeScaleY_getElem? (v : K) (r : Nat) (ms : List (Procedural.Mesh K)) :
    (Procedural.writeScaleY v r ms)[r]? =
      (ms[r]?).map (fun m => { m with scaleY := v }) := by
  induction ms generalizing r with
  | nil => cases r <;> simp [Procedural.writeScaleY]
  | cons m ms ih =>
    cases r with
    | zero => simp [Procedural.writeScaleY]
    | succ n => simpa [Procedural.writeScaleY] using ih n

/-- C5: with the sine of the reals for Math.sin, for every elapsed time t that
    is not negative, the openness of updateLipSync lies between 0.2 and 1.0 in
    main-procedural.js and between 0 and 0.5 in main.js, and the mouth scale
    that main-procedural.js derives from it lies between 0 and 1.0; and those
    are the values updateLipSync writes, to the scale of the mouth object in
    main-procedural.js and to the weight aa in main.js, in every speaking
    state whose elapsed time is t. -/
theorem lip_sync_openness_in_range (env : Env ℝ) (hsin : env.sin = Real.sin)
    (t : ℝ) (_ht : 0 ≤ t) :
    (0.2 ≤ Procedural.mouthOpenness env t ∧ Procedural.mouthOpenness env t ≤ 1.0) ∧
    (0 ≤ Main.mouthOpenness env t ∧ Main.mouthOpenness env t ≤ 0.5) ∧
    (0 ≤ Procedural.mouthScale (Procedural.mouthOpenness env t) ∧
      Procedural.mouthScale (Procedural.mouthOpenness env t) ≤ 1.0) ∧
    (∀ (s : Procedural.State ℝ) (now : Int) (dt : ℝ) (r : Nat) (m : Procedural.Mesh ℝ),
      s.isSpeaking = true → s.avatar.mouth = some r → s.meshes[r]? = some m →
      ((now - s.speakingStartTime : Int) : ℝ) / 1000 = t →
      ((Procedural.updateLipSync env now dt s).meshes[r]?).map Procedural.Mesh.scaleY
        = some (Procedural.mouthScale (Procedural.mouthOpenness env t))) ∧
    (∀ (s : Main.State ℝ) (now : Int) (dt : ℝ) (vrm : Main.Vrm ℝ)
        (em : Main.ExpressionManager ℝ),
      s.isSpeaking = true → s.currentVrm = some vrm → vrm.expressionManager = some em →
      ((now - s.speakingStartTime : Int) : ℝ) / 1000 = t →
      (((Main.updateLipSync env now dt s).currentVrm.bind
          Main.Vrm.expressionManager).map Main.ExpressionManager.aa)
        = some (Main.mouthOpenness env t)) := by
  have h1 := Real.neg_one_le_sin (t * 15)
  have h2 := Real.sin_le_one (t * 15)
  have h3 := Real.neg_one_le_sin (t * 10)
  have h4 := Real.sin_le_one (t * 10)
  refine ⟨⟨?_, ?_⟩, ⟨?_, ?_⟩, ⟨?_, ?_⟩, ?_, ?_⟩
  · simp only [Procedural.mouthOpenness, hsin]; norm_num; linarith
  · simp only [Procedural.mouthOpenness, hsin]; norm_num; linarith
  · simp only [Main.mouthOpenness, hsin]; norm_num; linarith
  · simp only [Main.mouthOpenness, hsin]; norm_num; linarith
  · simp only [Procedural.mouthOpenness, Procedural.mouthScale, hsin]; norm_num; linarith
  · simp only [Procedural.mouthOpenness, Procedural.mouthScale, hsin]; norm_num; linarith
  · intro s now dt r m hsp hmouth hmesh helapsed
    unfold Procedural.updateLipSync
    simp only [hsp, hmouth, helapsed]
    cases s.avatar.head <;> simp [writeScaleY_getElem?, hmesh]
  · intro s now dt vrm em hsp hvrm hem helapsed
    unfold Main.updateLipSync
    simp only [hsp, hvrm, hem, helapsed]
    simp

/-- The instance of C5 at elapsed time 0, with the sine of the reals. -/
theorem lip_sync_openness_in_range_witness :
    (⟨Real.sin, Real.pi, none⟩ : Env ℝ).sin = Real.sin ∧ (0 : ℝ) ≤ 0 ∧
    0.2 ≤ Procedural.mouthOpenness (⟨Real.sin, Real.pi, none⟩ : Env ℝ) 0 ∧
    Procedural.mouthOpenness (⟨Real.sin, Real.pi, none⟩ : Env ℝ) 0 ≤ 1.0 :=
  ⟨rfl, le_refl 0, (lip_sync_openness_in_range ⟨Real.sin, Real.pi, none⟩ rfl 0 (le_refl 0)).1⟩

/-- C6, the defect in main.js: on the page as the file loads it, with a model
    file that parses, no model is registered, since the loader has no plugin
    that would put one in the field the file reads, and the loading element
    stays. After a speaking_start, a frame, a speaking_end and an idle frame,
    isSpeaking is false and speakingStartTime is as the message left it, but
    there is no weight aa at all, at 0 or elsewhere: neither lip sync nor the
    idle frame got past its first guard. -/
theorem main_idle_tick_finds_no_model :
    parsedPage.currentVrm = none ∧
    parsedPage.ui.loadingHidden = false ∧
    speakThenIdle.isSpeaking = false ∧
    speakThenIdle.speakingStartTime = 0 ∧
    Main.aaWeight speakThenIdle = none ∧
    Main.aaWeight speakThenIdle ≠ some 0 :=
  ⟨rfl, rfl, rfl, rfl, rfl, by
    have h : Main.aaWeight speakThenIdle = none := rfl
    rw [h]
    exact fun hh => by cases hh⟩

/-- In main.js no idle tick ever writes the weight aa: whatever lip sync left
    there stays, and speakingStartTime stays too. -/
theorem main_idle_tick_keeps_aa [Field K] (env : Env K) (now : Int) (blinkTrial : Bool)
    (dt : K) (s : Main.State K) (h : s.isSpeaking = false) :
    (Main.animate env now blinkTrial dt s).speakingStartTime = s.speakingStartTime ∧
    ((Main.animate env now blinkTrial dt s).currentVrm.bind Main.Vrm.expressionManager).map
        Main.ExpressionManager.aa
      = (s.currentVrm.bind Main.Vrm.expressionManager).map Main.ExpressionManager.aa := by
  obtain ⟨sp, st, ce, ui, cv, tm, sk⟩ := s
  simp only at h
  subst h
  unfold Main.animate Main.updateIdleAnimation Main.blink
  simp only [Bool.false_eq_true, if_false]
  cases cv with
  | none => simp
  | some vrm =>
    obtain ⟨em, hum⟩ := vrm
    cases hum with
    | none => cases blinkTrial <;> cases em <;> simp
    | some hm =>
      obtain ⟨chest⟩ := hm
      cases chest <;> cases blinkTrial <;> cases em <;> simp

/-- Writing the scale of one object leaves every other object as it was. -/
theorem writeScaleY_getElem?_ne (v : K) {e r : Nat} (hne : e ≠ r)
    (ms : List (Procedural.Mesh K)) :
    (Procedural.writeScaleY v e ms)[r]? = ms[r]? := by
  induction ms generalizing e r with
  | nil => cases e <;> simp [Procedural.writeScaleY]
  | cons m ms ih =>
    cases e with
    | zero =>
      cases r with
      | zero => exact absurd rfl hne
      | succ k => simp [Procedural.writeScaleY]
    | succ n =>
      cases r with
      | zero => simp [Procedural.writeScaleY]
      | succ k =>
        have hnk : n ≠ k := fun hh => hne (by rw [hh])
        simpa [Procedural.writeScaleY] using ih hnk

/-- Closing a list of eyes leaves the speaking variables alone, and leaves
    alone every object that is not in the list. -/
theorem blinkEye_foldl_frame [Field K] (now : Int) (r : Nat) (eyes : List Nat)
    (hr : ∀ e ∈ eyes, e ≠ r) (s : Procedural.State K) :
    (eyes.foldl (Procedural.blinkEye now) s).isSpeaking = s.isSpeaking ∧
    (eyes.foldl (Procedural.blinkEye now) s).speakingStartTime = s.speakingStartTime ∧
    (eyes.foldl (Procedural.blinkEye now) s).meshes[r]? = s.meshes[r]? := by
  induction eyes generalizing s with
  | nil => simp
  | cons e es ih =>
    have hne : e ≠ r := hr e (List.mem_cons_self _ _)
    have ih2 := ih (fun x hx => hr x (List.mem_cons_of_mem _ hx)) (Procedural.blinkEye now s e)
    rw [List.foldl_cons]
    refine ⟨ih2.1.trans ?_, ih2.2.1.trans ?_, ih2.2.2.trans ?_⟩
    · unfold Procedural.blinkEye; split <;> rfl
    · unfold Procedural.blinkEye; split <;> rfl
    · unfold Procedural.blinkEye
      split
      · rfl
      · exact writeScaleY_getElem?_ne _ hne _

/-- A blink in main-procedural.js leaves the speaking variables alone, and
    leaves alone every object that does not pass its filter. -/
theorem procedural_blink_frame [Field K] (now : Int) (r : Nat) (s : Procedural.State K)
    (hr : Procedural.isEye s.meshes r = false) :
    (Procedural.blink now s).isSpeaking = s.isSpeaking ∧
    (Procedural.blink now s).speakingStartTime = s.speakingStartTime ∧
    (Procedural.blink now s).meshes[r]? = s.meshes[r]? := by
  unfold Procedural.blink
  cases s.avatar.head with
  | none => exact ⟨rfl, rfl, rfl⟩
  | some head =>
    apply blinkEye_foldl_frame
    intro e he heq
    rw [List.mem_filter] at he
    rw [heq, hr] at he
    exact absurd he.2 (by simp)

/-- In main-procedural.js the idle tick does what C6 says: with isSpeaking
    false, a torso and a mouth that is not taken for an eye, one tick leaves
    speakingStartTime alone and leaves the scale of the mouth at 0.3, blink
    or no blink. -/
theorem procedural_idle_tick_resets_mouth [Field K] (env : Env K) (now : Int)
    (blinkTrial : Bool) (time dt : K) (s : Procedural.State K) (r : Nat)
    (torso : K × K × K) (m : Procedural.Mesh K)
    (hsp : s.isSpeaking = false) (htorso : s.avatar.torso = some torso)
    (hmouth : s.avatar.mouth = some r) (hmesh : s.meshes[r]? = some m)
    (hnot : m.geometryType ≠ some "SphereGeometry") :
    (Procedural.animate env now blinkTrial time dt s).speakingStartTime = s.speakingStartTime ∧
    ((Procedural.animate env now blinkTrial time dt s).meshes[r]?).map Procedural.Mesh.scaleY
      = some 0.3 := by
  unfold Procedural.animate Procedural.updateIdleAnimation
  simp only [hsp, Bool.false_eq_true, if_false, htorso, Bool.not_false]
  have hm2 : ∀ a b : Option K,
      (match a, b with
        | some _, some _ =>
          ({ s.avatar with
              torso := some (1 + env.sin (time * 2) * 0.015, 1 + env.sin (time * 2) * 0.015,
                1 + env.sin (time * 2) * 0.015)
              leftArm := some (0.1 + env.sin (time * 1.5) * 0.03)
              rightArm := some (-0.1 - env.sin (time * 1.5 + 1) * 0.03) } : Procedural.Avatar K)
        | _, _ =>
          { s.avatar with
              torso := some (1 + env.sin (time * 2) * 0.015, 1 + env.sin (time * 2) * 0.015,
                1 + env.sin (time * 2) * 0.015) }).mouth = some r := by
    intro a b
    cases a <;> cases b <;> simp [hmouth]
  simp only [hm2]
  have hw : ((Procedural.writeScaleY (0.3 : K) r s.meshes)[r]?).map Procedural.Mesh.scaleY
      = some 0.3 := by
    rw [writeScaleY_getElem?, hmesh]; rfl
  cases blinkTrial with
  | false => exact ⟨rfl, hw⟩
  | true =>
    simp only [if_true]
    have hne : Procedural.isEye (Procedural.writeScaleY (0.3 : K) r s.meshes) r = false := by
      unfold Procedural.isEye
      rw [writeScaleY_getElem?, hmesh]
      simp [hnot]
    have hb := fun st h => @procedural_blink_frame K _ now r st h
    refine ⟨(hb _ hne).2.1, ?_⟩
    rw [(hb _ hne).2.2]
    exact hw

/-- The idle tick of main-procedural.js on the avatar the file builds, with a
    blink in the same tick: the mouth, object 4 of the store, is at scale 0.3 after it. -/
theorem procedural_idle_tick_on_built_avatar :
    ((Procedural.animate platformAtZero 0 true 0 0 builtAvatar).meshes[4]?).map
      Procedural.Mesh.scaleY = some (0.3 : ℚ) :=
  (procedural_idle_tick_resets_mouth platformAtZero 0 true 0 0 builtAvatar 4 (1, 1, 1)
    ⟨some "CapsuleGeometry", .other, 0.3⟩ rfl rfl rfl rfl (by decide)).2

/-- C7, the defect in main-procedural.js: its switch has no case for thinking,
    so a thinking message changes nothing; the display is not shown and its
    text is not set to the text Thinking. -/
theorem procedural_ignores_thinking :
    Procedural.handleVoiceGatewayMessage 0
        (Procedural.initialState blankUi : Procedural.State ℚ) thinkingMessage
      = ⟨Procedural.initialState blankUi, none⟩ ∧
    (Procedural.handleVoiceGatewayMessage 0
        (Procedural.initialState blankUi : Procedural.State ℚ) thinkingMessage).state.ui.messageShow
      = false :=
  ⟨rfl, rfl⟩

/-- In main-procedural.js every thinking message is dropped, whatever the state. -/
theorem procedural_thinking_is_dropped (now : Int) (s : Procedural.State K) (data : JsValue)
    (h : data.getMember "type" = .ok (.str "thinking")) :
    Procedural.handleVoiceGatewayMessage now s data = ⟨s, none⟩ := by
  simp [Procedural.handleVoiceGatewayMessage, h]

/-- In main.js a thinking message does what C7 says: isSpeaking stays as it
    was and the display shows the text Thinking. -/
theorem main_thinking_shows_text (now : Int) (s : Main.State K) (data : JsValue)
    (h : data.getMember "type" = .ok (.str "thinking")) :
    (Main.handleVoiceGatewayMessage now s data).thrown = none ∧
    (Main.handleVoiceGatewayMessage now s data).state.isSpeaking = s.isSpeaking ∧
    (Main.handleVoiceGatewayMessage now s data).state.ui.messageText = .str "Thinking..." ∧
    (Main.handleVoiceGatewayMessage now s data).state.ui.messageShow = true := by
  simp [Main.handleVoiceGatewayMessage, h, showMessage]

/-- C8, the defect in main.js: nothing catches around the constructor, so when
    it throws, connectWebSocket raises the same exception instead of returning
    normally. -/
theorem main_connect_raises :
    Main.connectWebSocket platformWithoutSocket 0 (Main.initialState blankUi : Main.State ℚ)
      = ⟨Main.initialState blankUi, some (.other "SecurityError")⟩ ∧
    (Main.connectWebSocket platformWithoutSocket 0
        (Main.initialState blankUi : Main.State ℚ)).thrown ≠ none :=
  ⟨rfl, by simp [Main.connectWebSocket, platformWithoutSocket]⟩

/-- In main-procedural.js connectWebSocket does what C8 says: when the
    constructor throws, it returns normally with the state as it was, so no
    timer is set and no socket exists. -/
theorem procedural_connect_is_silent (env : Env K) (e : JsError) (now : Int)
    (s : Procedural.State K) (h : env.webSocketThrows = some e) :
    Procedural.connectWebSocket env now s = ⟨s, none⟩ := by
  simp [Procedural.connectWebSocket, h]

/-- In main.js connectWebSocket raises whatever the constructor throws, with
    the state as it was. -/
theorem main_connect_rethrows (env : Env K) (e : JsError) (now : Int)
    (s : Main.State K) (h : env.webSocketThrows = some e) :
    Main.connectWebSocket env now s = ⟨s, some e⟩ := by
  simp [Main.connectWebSocket, h]

/-- C10: in both implementations, for every prior state, handling a listening
    message completes, leaves isSpeaking and speakingStartTime as they were,
    turns the recording flag of the mic indicator on, and makes the display
    show the text Listening. -/
theorem listening_shows_text_and_keeps_speaking (now : Int) (data : JsValue)
    (h : data.getMember "type" = .ok (.str "listening")) :
    (∀ s : Procedural.State K,
      (Procedural.handleVoiceGatewayMessage now s data).thrown = none ∧
      (Procedural.handleVoiceGatewayMessage now s data).state.isSpeaking = s.isSpeaking ∧
      (Procedural.handleVoiceGatewayMessage now s data).state.speakingStartTime
        = s.speakingStartTime ∧
      (Procedural.handleVoiceGatewayMessage now s data).state.ui.micRecording = true ∧
      (Procedural.handleVoiceGatewayMessage now s data).state.ui.messageText
        = .str "Listening..." ∧
      (Procedural.handleVoiceGatewayMessage now s data).state.ui.messageShow = true) ∧
    (∀ s : Main.State K,
      (Main.handleVoiceGatewayMessage now s data).thrown = none ∧
      (Main.handleVoiceGatewayMessage now s data).state.isSpeaking = s.isSpeaking ∧
      (Main.handleVoiceGatewayMessage now s data).state.speakingStartTime
        = s.speakingStartTime ∧
      (Main.handleVoiceGatewayMessage now s data).state.ui.micRecording = true ∧
      (Main.handleVoiceGatewayMessage now s data).state.ui.messageText
        = .str "Listening..." ∧
      (Main.handleVoiceGatewayMessage now s data).state.ui.messageShow = true) := by
  constructor
  · intro s
    simp [Procedural.handleVoiceGatewayMessage, h, showMessage]
  · intro s
    simp [Main.handleVoiceGatewayMessage, h, showMessage]

/-- The instance of C10 at a listening message that arrives while the avatar speaks. -/
theorem listening_shows_text_and_keeps_speaking_witness :
    listeningMessage.getMember "type" = .ok (.str "listening") ∧
    (Main.handleVoiceGatewayMessage 7
        (Main.handleVoiceGatewayMessage 5 (Main.initialState blankUi : Main.State ℚ)
          helloStart).state listeningMessage).state.isSpeaking
      = (Main.handleVoiceGatewayMessage 5 (Main.initialState blankUi : Main.State ℚ)
          helloStart).state.isSpeaking :=
  ⟨rfl, ((listening_shows_text_and_keeps_speaking 7 listeningMessage rfl).2 _).2.1⟩

/-- A new timer lengthens the queue by one. -/
theorem length_setTimer {α : Type} (t : Timer α) (l : List (Timer α)) :
    (setTimer t l).length = l.length + 1 := by
  induction l with
  | nil => rfl
  | cons u us ih =>
    unfold setTimer
    split
    · rfl
    · simp [ih]

/-- A new timer that fails a test is invisible to the filter of that test. -/
theorem filter_setTimer_of_neg {α : Type} (p : Timer α → Bool) (t : Timer α)
    (l : List (Timer α)) (hp : p t = false) :
    (setTimer t l).filter p = l.filter p := by
  induction l with
  | nil => simp [setTimer, hp]
  | cons u us ih =>
    unfold setTimer
    split
    · simp [List.filter_cons, hp]
    · simp [List.filter_cons, ih]

/-- A new timer that passes a test no pending timer passes is the only one to pass it. -/
theorem filter_setTimer_of_pos {α : Type} (p : Timer α → Bool) (t : Timer α)
    (l : List (Timer α)) (hp : p t = true) (hl : l.filter p = []) :
    (setTimer t l).filter p = [t] := by
  induction l with
  | nil => simp [setTimer, hp]
  | cons u us ih =>
    have hu : p u = false := by
      cases hpu : p u with
      | false => rfl
      | true => simp [List.filter_cons, hpu] at hl
    have hus : us.filter p = [] := by simpa [List.filter_cons, hu] using hl
    unfold setTimer
    split
    · simp [List.filter_cons, hp, hu, hus]
    · simp [List.filter_cons, hu, ih hus]

/-- The callbacks of main-procedural.js: each reconnect among them constructs
    one socket, and none of them sets a timer. -/
theorem procedural_callbacks_fold (env : Env K) (h : env.webSocketThrows = none) (now : Int)
    (due : List (Timer (Procedural.TimerAction K))) (st : Procedural.State K) :
    (due.foldl (fun st t => Procedural.timerCallback env now st t.action) st).sockets
      = st.sockets ++ (due.filter Procedural.isReconnect).map (fun _ => now) ∧
    (due.foldl (fun st t => Procedural.timerCallback env now st t.action) st).timers
      = st.timers := by
  induction due generalizing st with
  | nil => simp
  | cons t ts ih =>
    obtain ⟨d, a⟩ := t
    rw [List.foldl_cons]
    cases a with
    | restoreEye eye orig =>
      have := ih (Procedural.timerCallback env now st (.restoreEye eye orig))
      simpa [Procedural.timerCallback, Procedural.isReconnect, List.filter_cons] using this
    | connectWebSocket =>
      have := ih (Procedural.timerCallback env now st .connectWebSocket)
      simpa [Procedural.timerCallback, Procedural.connectWebSocket, h, Procedural.isReconnect,
        List.filter_cons] using this

/-- One round in main-procedural.js: from a state with no reconnect pending, a
    close at time `t` and the turn of the event loop at `t + 5000` construct
    exactly one socket, at `t + 5000`, and leave no reconnect pending. -/
theorem procedural_close_round (env : Env K) (h : env.webSocketThrows = none) (t : Int)
    (st : Procedural.State K) (hst : st.timers.filter Procedural.isReconnect = []) :
    (Procedural.runTimers env (t + 5000) (Procedural.onclose t st)).sockets
      = st.sockets ++ [t + 5000] ∧
    (Procedural.runTimers env (t + 5000) (Procedural.onclose t st)).timers.filter
      Procedural.isReconnect = [] := by
  have hnil : ∀ q : Timer (Procedural.TimerAction K) → Bool,
      st.timers.filter (fun a => Procedural.isReconnect a && q a) = [] := by
    intro q
    rw [List.filter_eq_nil_iff] at hst ⊢
    intro a ha
    simp [hst a ha]
  unfold Procedural.runTimers
  obtain ⟨h1, h2⟩ := procedural_callbacks_fold env h (t + 5000)
    ((Procedural.onclose t st).timers.filter (fun x => decide (x.due ≤ t + 5000)))
    { Procedural.onclose t st with
      timers := (Procedural.onclose t st).timers.filter (fun x => !decide (x.due ≤ t + 5000)) }
  rw [h1, h2]
  simp only [Procedural.onclose, List.filter_filter]
  rw [filter_setTimer_of_pos _ _ _ (by simp [Procedural.isReconnect]) (hnil _),
    filter_setTimer_of_neg _ _ _ (by simp [Procedural.isReconnect])]
  exact ⟨by simp, hnil _⟩

/-- The rounds of main-procedural.js one after the other: one socket per close,
    5000 ms after it. -/
theorem procedural_rounds (env : Env K) (h : env.webSocketThrows = none) (closes : List Int)
    (st : Procedural.State K) (hst : st.timers.filter Procedural.isReconnect = []) :
    (closes.foldl (fun st t => Procedural.runTimers env (t + 5000) (Procedural.onclose t st))
        st).sockets = st.sockets ++ closes.map (fun t => t + 5000) := by
  induction closes generalizing st with
  | nil => simp
  | cons t ts ih =>
    obtain ⟨h1, h2⟩ := procedural_close_round env h t st hst
    rw [List.foldl_cons, ih _ h2, h1]
    simp

/-- The interval callback of a blink writes the model only. -/
theorem main_blinkCallback_frame [Field K] (env : Env K) (now start : Int) (s : Main.State K) :
    (Main.blinkCallback env now start s).1.sockets = s.sockets ∧
    (Main.blinkCallback env now start s).1.timers = s.timers := by
  unfold Main.blinkCallback
  split
  · exact ⟨rfl, rfl⟩
  · split
    · exact ⟨rfl, rfl⟩
    · simp only
      split <;> exact ⟨rfl, rfl⟩

/-- The callbacks of main.js: each reconnect among them constructs one socket,
    and none of them sets a reconnect. -/
theorem main_callbacks_fold [Field K] (env : Env K) (h : env.webSocketThrows = none)
    (now : Int) (due : List (Timer Main.TimerAction)) (st : Main.State K) :
    (due.foldl (fun st t => Main.timerCallback env now st t.action) st).sockets
      = st.sockets ++ (due.filter Main.isReconnect).map (fun _ => now) ∧
    (due.foldl (fun st t => Main.timerCallback env now st t.action) st).timers.filter
      Main.isReconnect = st.timers.filter Main.isReconnect := by
  induction due generalizing st with
  | nil => simp
  | cons t ts ih =>
    obtain ⟨d, a⟩ := t
    rw [List.foldl_cons]
    cases a with
    | blinkInterval start =>
      obtain ⟨i1, i2⟩ := ih (Main.timerCallback env now st (.blinkInterval start))
      obtain ⟨f1, f2⟩ := main_blinkCallback_frame env now start st
      have e1 : (Main.timerCallback env now st (.blinkInterval start)).sockets = st.sockets := by
        unfold Main.timerCallback
        simp only
        split <;> simp [f1]
      have e2 : (Main.timerCallback env now st (.blinkInterval start)).timers.filter
          Main.isReconnect = st.timers.filter Main.isReconnect := by
        unfold Main.timerCallback
        simp only
        split
        · simp only
          rw [filter_setTimer_of_neg _ _ _ (by simp [Main.isReconnect]), f2]
        · rw [f2]
      rw [i1, i2, e1, e2]
      simp [List.filter_cons, Main.isReconnect]
    | connectWebSocket =>
      have := ih (Main.timerCallback env now st .connectWebSocket)
      simpa [Main.timerCallback, Main.connectWebSocket, h, Main.isReconnect,
        List.filter_cons] using this

/-- One round in main.js: from a state with no reconnect pending, a close at
    time `t` and the turn of the event loop at `t + 5000` construct exactly one
    socket, at `t + 5000`, and leave no reconnect pending. -/
theorem main_close_round [Field K] (env : Env K) (h : env.webSocketThrows = none) (t : Int)
    (st : Main.State K) (hst : st.timers.filter Main.isReconnect = []) :
    (Main.runTimers env (t + 5000) (Main.onclose t st)).sockets = st.sockets ++ [t + 5000] ∧
    (Main.runTimers env (t + 5000) (Main.onclose t st)).timers.filter Main.isReconnect
      = [] := by
  have hnil : ∀ q : Timer Main.TimerAction → Bool,
      st.timers.filter (fun a => Main.isReconnect a && q a) = [] := by
    intro q
    rw [List.filter_eq_nil_iff] at hst ⊢
    intro a ha
    simp [hst a ha]
  unfold Main.runTimers
  obtain ⟨h1, h2⟩ := main_callbacks_fold env h (t + 5000)
    ((Main.onclose t st).timers.filter (fun x => decide (x.due ≤ t + 5000)))
    { Main.onclose t st with
      timers := (Main.onclose t st).timers.filter (fun x => !decide (x.due ≤ t + 5000)) }
  rw [h1, h2]
  simp only [Main.onclose, Main.reconnectInterval, List.filter_filter]
  rw [filter_setTimer_of_pos _ _ _ (by simp [Main.isReconnect]) (hnil _),
    filter_setTimer_of_neg _ _ _ (by simp [Main.isReconnect])]
  exact ⟨by simp, hnil _⟩

/-- The rounds of main.js one after the other: one socket per close, 5000 ms after it. -/
theorem main_rounds [Field K] (env : Env K) (h : env.webSocketThrows = none)
    (closes : List Int) (st : Main.State K) (hst : st.timers.filter Main.isReconnect = []) :
    (closes.foldl (fun st t => Main.runTimers env (t + 5000) (Main.onclose t st))
        st).sockets = st.sockets ++ closes.map (fun t => t + 5000) := by
  induction closes generalizing st with
  | nil => simp
  | cons t ts ih =>
    obtain ⟨h1, h2⟩ := main_close_round env h t st hst
    rw [List.foldl_cons, ih _ h2, h1]
    simp

/-- C9: in both implementations, on a platform whose constructor does not
    throw: every run of the onclose handler clears the connection indicator,
    constructs no socket itself and adds exactly one timer to the queue, a call
    of connectWebSocket due 5000 ms after the close, whatever the state (there
    is no counter); the onerror handler changes nothing; and a session made of
    a first connection and of n closes, each followed by the turn of the event
    loop 5000 ms later, constructs n + 1 sockets, the first at the start and
    one 5000 ms after each close. -/
theorem close_schedules_one_reconnect [Field K] (env : Env K)
    (h : env.webSocketThrows = none) :
    ((∀ (s : Procedural.State K) (now : Int),
        (Procedural.onclose now s).ui.connectionActive = false ∧
        (Procedural.onclose now s).sockets = s.sockets ∧
        (Procedural.onclose now s).timers
          = setTimer ⟨now + 5000, .connectWebSocket⟩ s.timers ∧
        (Procedural.onclose now s).timers.length = s.timers.length + 1) ∧
      (∀ s : Procedural.State K, Procedural.onerror s = s) ∧
      (∀ (s : Procedural.State K) (start : Int) (closes : List Int),
        s.timers.filter Procedural.isReconnect = [] →
        (Procedural.reconnectRun env start closes s).sockets
            = s.sockets ++ start :: closes.map (fun t => t + 5000) ∧
        (Procedural.reconnectRun env start closes s).sockets.length
            = s.sockets.length + (closes.length + 1))) ∧
    ((∀ (s : Main.State K) (now : Int),
        (Main.onclose now s).ui.connectionActive = false ∧
        (Main.onclose now s).sockets = s.sockets ∧
        (Main.onclose now s).timers = setTimer ⟨now + 5000, .connectWebSocket⟩ s.timers ∧
        (Main.onclose now s).timers.length = s.timers.length + 1) ∧
      (∀ s : Main.State K, Main.onerror s = s) ∧
      (∀ (s : Main.State K) (start : Int) (closes : List Int),
        s.timers.filter Main.isReconnect = [] →
        (Main.reconnectRun env start closes s).sockets
            = s.sockets ++ start :: closes.map (fun t => t + 5000) ∧
        (Main.reconnectRun env start closes s).sockets.length
            = s.sockets.length + (closes.length + 1))) := by
  refine ⟨⟨?_, fun _ => rfl, ?_⟩, ⟨?_, fun _ => rfl, ?_⟩⟩
  · intro s now
    exact ⟨rfl, rfl, rfl, length_setTimer _ _⟩
  · intro s start closes hs
    have key : (Procedural.reconnectRun env start closes s).sockets
        = s.sockets ++ start :: closes.map (fun t => t + 5000) := by
      unfold Procedural.reconnectRun
      rw [procedural_rounds env h closes _ (by simpa [Procedural.connectWebSocket, h] using hs)]
      simp [Procedural.connectWebSocket, h]
    exact ⟨key, by rw [key]; simp⟩
  · intro s now
    exact ⟨rfl, rfl, rfl, length_setTimer _ _⟩
  · intro s start closes hs
    have key : (Main.reconnectRun env start closes s).sockets
        = s.sockets ++ start :: closes.map (fun t => t + 5000) := by
      unfold Main.reconnectRun
      rw [main_rounds env h closes _ (by simpa [Main.connectWebSocket, h] using hs)]
      simp [Main.connectWebSocket, h]
    exact ⟨key, by rw [key]; simp⟩

/-- The instance of C9 on a platform with sockets, for a session that starts at
    clock time 0 and whose sockets close at 100 and at 6000. -/
theorem close_schedules_one_reconnect_witness :
    platformAtZero.webSocketThrows = none ∧
    (Procedural.reconnectRun platformAtZero 0 [100, 6000]
        (Procedural.initialState blankUi : Procedural.State ℚ)).sockets = [0, 5100, 11000] ∧
    (Main.reconnectRun platformAtZero 0 [100, 6000]
        (Main.initialState blankUi : Main.State ℚ)).sockets = [0, 5100, 11000] :=
  ⟨rfl,
    ((close_schedules_one_reconnect platformAtZero rfl).1.2.2
      (Procedural.initialState blankUi) 0 [100, 6000] rfl).1,
    ((close_schedules_one_reconnect platformAtZero rfl).2.2.2
      (Main.initialState blankUi) 0 [100, 6000] rfl).1⟩

/-- A message whose type is none of the recognised ones is not of the type `ty`
    when `ty` is one of them, whatever the member access returns. -/
theorem getMember_ne_of_unrecognized {data : JsValue}
    (h : ∀ ty ∈ recognizedTypes, hasType ty data = false) (ty : String)
    (hty : ty ∈ recognizedTypes) : data.getMember "type" ≠ .ok (.str ty) := by
  intro hg
  have := h ty hty
  rw [(hasType_iff ty data).2 hg] at this
  exact absurd this (by decide)

/-- C11: in both implementations, for every prior state and every decoded
    message whose type is none of speaking_start, speaking_end, listening,
    thinking, mic_off and message, a record without a type field included,
    handleVoiceGatewayMessage leaves the whole state as it was, so isSpeaking,
    speakingStartTime, currentExpression, the text and visibility of the
    display and the mic and agent indicators are unchanged; and whenever the
    message is a value with members, that is anything but null and undefined,
    the handler also completes without raising. -/
theorem unrecognized_type_is_ignored (now : Int) (data : JsValue)
    (h : ∀ ty ∈ recognizedTypes, hasType ty data = false) :
    (∀ s : Procedural.State K,
      (Procedural.handleVoiceGatewayMessage now s data).state = s ∧
      (∀ v, data.getMember "type" = .ok v →
        Procedural.handleVoiceGatewayMessage now s data = ⟨s, none⟩)) ∧
    (∀ s : Main.State K,
      (Main.handleVoiceGatewayMessage now s data).state = s ∧
      (∀ v, data.getMember "type" = .ok v →
        Main.handleVoiceGatewayMessage now s data = ⟨s, none⟩)) := by
  have h1 := getMember_ne_of_unrecognized h "speaking_start" (by decide)
  have h2 := getMember_ne_of_unrecognized h "speaking_end" (by decide)
  have h3 := getMember_ne_of_unrecognized h "listening" (by decide)
  have h4 := getMember_ne_of_unrecognized h "thinking" (by decide)
  have h5 := getMember_ne_of_unrecognized h "mic_off" (by decide)
  have h6 := getMember_ne_of_unrecognized h "message" (by decide)
  constructor
  · intro s
    unfold Procedural.handleVoiceGatewayMessage
    split
    · next e he => exact ⟨rfl, fun v hv => by rw [he] at hv; cases hv⟩
    · next hg => exact absurd hg h1
    · next hg => exact absurd hg h2
    · next hg => exact absurd hg h3
    · next hg => exact absurd hg h5
    · exact ⟨rfl, fun _ _ => rfl⟩
  · intro s
    unfold Main.handleVoiceGatewayMessage
    split
    · next e he => exact ⟨rfl, fun v hv => by rw [he] at hv; cases hv⟩
    · next hg => exact absurd hg h1
    · next hg => exact absurd hg h2
    · next hg => exact absurd hg h3
    · next hg => exact absurd hg h4
    · next hg => exact absurd hg h6
    · next hg => exact absurd hg h5
    · exact ⟨rfl, fun _ _ => rfl⟩

/-- The instance of C11 at the message of type foo, arriving while the avatar speaks. -/
theorem unrecognized_type_is_ignored_witness :
    (∀ ty ∈ recognizedTypes, hasType ty fooMessage = false) ∧
    Main.handleVoiceGatewayMessage 9
        (Main.handleVoiceGatewayMessage 5 (Main.initialState blankUi : Main.State ℚ)
          helloStart).state fooMessage
      = ⟨(Main.handleVoiceGatewayMessage 5 (Main.initialState blankUi : Main.State ℚ)
          helloStart).state, none⟩ :=
  ⟨by decide,
    ((unrecognized_type_is_ignored 9 fooMessage (by decide)).2 _).2 (.str "foo") rfl⟩

/-- C12, the defect in main-procedural.js: on the avatar the file builds, whose
    eyes are objects 2 and 3 of the store at scale 1, a blink at clock time 0
    and a second one at 100, inside the 150 ms of the first, leave both eyes at
    scale 0.1 once the two callbacks of each eye have fired, at 150 and at 250,
    and no timer is pending: the second blink remembered the closed scale. -/
theorem overlapping_blinks_leave_eyes_closed :
    (builtAvatar.meshes[2]?).map Procedural.Mesh.scaleY = some (1 : ℚ) ∧
    (builtAvatar.meshes[3]?).map Procedural.Mesh.scaleY = some (1 : ℚ) ∧
    (Procedural.blinkSession platformAtZero builtAvatar overlappingBlinks).timers.length = 0 ∧
    ((Procedural.blinkSession platformAtZero builtAvatar overlappingBlinks).meshes[2]?).map
      Procedural.Mesh.scaleY = some (0.1 : ℚ) ∧
    ((Procedural.blinkSession platformAtZero builtAvatar overlappingBlinks).meshes[3]?).map
      Procedural.Mesh.scaleY = some (0.1 : ℚ) := by
  refine ⟨rfl, rfl, ?_, ?_, ?_⟩ <;> rfl

/-- A timer just set is in the queue. -/
theorem mem_setTimer {α : Type} (t : Timer α) (l : List (Timer α)) : t ∈ setTimer t l := by
  induction l with
  | nil => simp [setTimer]
  | cons u us ih =>
    unfold setTimer
    split
    · simp
    · simp [ih]

/-- A queue that just received the interval of a blink has a blink pending. -/
theorem filter_setTimer_blink_ne_nil (d start : Int) (l : List (Timer Main.TimerAction)) :
    (setTimer ⟨d, Main.TimerAction.blinkInterval start⟩ l).filter Main.isBlinkTimer ≠ [] := by
  intro h
  rw [List.filter_eq_nil_iff] at h
  exact h _ (mem_setTimer _ _) rfl

/-- In main.js an interval callback that does not set itself again has put the
    weight of blink at 0. -/
theorem main_blink_callback_settles [Field K] (env : Env K) (now start : Int)
    (st : Main.State K)
    (h : (Main.timerCallback env now st (.blinkInterval start)).timers.filter
      Main.isBlinkTimer = []) :
    ∀ w, Main.blinkWeight (Main.timerCallback env now st (.blinkInterval start)) = some w →
      w = 0 := by
  unfold Main.timerCallback at h ⊢
  simp only at h ⊢
  split at h
  · exact absurd h (filter_setTimer_blink_ne_nil _ _ _)
  · next hgo =>
    rw [if_neg hgo]
    unfold Main.blinkCallback at hgo ⊢
    split at hgo
    · simp at hgo
    · split at hgo
      · simp at hgo
      · simp only at hgo ⊢
        split at hgo
        · next hfin =>
          simp only [if_pos hfin]
          intro w hw
          simpa [Main.blinkWeight] using hw.symm
        · simp at hgo

/-- A reconnect callback in main.js touches neither the queue nor the model. -/
theorem main_connect_callback_frame [Field K] (env : Env K) (now : Int) (st : Main.State K) :
    (Main.timerCallback env now st .connectWebSocket).timers = st.timers ∧
    Main.blinkWeight (Main.timerCallback env now st .connectWebSocket)
      = Main.blinkWeight st := by
  unfold Main.timerCallback Main.connectWebSocket
  cases env.webSocketThrows <;> exact ⟨rfl, rfl⟩

/-- The callbacks of one turn in main.js: if no interval of a blink is pending
    after them, either none was pending or ran and the weight is as before, or
    the weight of blink is 0. -/
theorem main_blink_fold [Field K] (env : Env K) (now : Int)
    (due : List (Timer Main.TimerAction)) (st : Main.State K)
    (h : (due.foldl (fun st t => Main.timerCallback env now st t.action) st).timers.filter
      Main.isBlinkTimer = []) :
    (due.filter Main.isBlinkTimer = [] ∧ st.timers.filter Main.isBlinkTimer = [] ∧
      Main.blinkWeight (due.foldl (fun st t => Main.timerCallback env now st t.action) st)
        = Main.blinkWeight st) ∨
    (∀ w, Main.blinkWeight
        (due.foldl (fun st t => Main.timerCallback env now st t.action) st) = some w →
      w = 0) := by
  induction due generalizing st with
  | nil => exact Or.inl ⟨rfl, h, rfl⟩
  | cons t ts ih =>
    obtain ⟨d, a⟩ := t
    rw [List.foldl_cons] at h ⊢
    rcases ih _ h with ⟨h1, h2, h3⟩ | h0
    · cases a with
      | blinkInterval start =>
        refine Or.inr fun w hw => ?_
        rw [h3] at hw
        exact main_blink_callback_settles env now start st h2 w hw
      | connectWebSocket =>
        obtain ⟨f1, f2⟩ := main_connect_callback_frame env now st
        refine Or.inl ⟨?_, ?_, h3.trans f2⟩
        · simpa [List.filter_cons, Main.isBlinkTimer] using h1
        · rw [← f1]; exact h2
    · exact Or.inr h0

/-- Every event of a session of blinks in main.js keeps the eyes at rest
    whenever no interval is pending. -/
theorem main_blinkStep_settled [Field K] (env : Env K) (s : Main.State K) (ev : BlinkEvent)
    (hs : Main.BlinkSettled s) : Main.BlinkSettled (Main.blinkStep env s ev) := by
  cases ev with
  | trigger now =>
    show Main.BlinkSettled (Main.blink now s)
    unfold Main.blink
    split
    · exact hs
    · split
      · exact hs
      · intro h
        exact absurd h (filter_setTimer_blink_ne_nil _ _ _)
  | turn now =>
    show Main.BlinkSettled (Main.runTimers env now s)
    unfold Main.runTimers
    intro h
    rcases main_blink_fold env now _ _ h with ⟨h1, h2, h3⟩ | h0
    · rw [h3]
      apply hs
      rw [List.filter_eq_nil_iff] at h1 h2 ⊢
      intro a ha
      by_cases hq : a.due ≤ now
      · exact h1 a (List.mem_filter.2 ⟨ha, by simpa using hq⟩)
      · exact h2 a (List.mem_filter.2 ⟨ha, by simpa using hq⟩)
    · exact h0

/-- In main.js the part of C12 about it holds: from a state whose eyes are at
    rest, after any session of blinks and turns of the event loop, overlapping
    or not, once no interval of a blink is pending the weight of blink is 0. -/
theorem main_blinks_end_at_rest [Field K] (env : Env K) (events : List BlinkEvent)
    (s : Main.State K) (hs : Main.BlinkSettled s) :
    Main.BlinkSettled (Main.blinkSession env s events) := by
  unfold Main.blinkSession
  induction events generalizing s with
  | nil => exact hs
  | cons ev evs ih => exact ih _ (main_blinkStep_settled env s ev hs)

/-- A single blink in main-procedural.js does restore the eyes: on the avatar
    the file builds, after a blink at clock time 0 both eyes are at scale 0.1
    until the callbacks fire, and back at scale 1 after the turn at 150, with
    no timer pending. -/
theorem procedural_single_blink_restores :
    ((Procedural.blinkSession platformAtZero builtAvatar [.trigger 0, .turn 149]).meshes[2]?).map
      Procedural.Mesh.scaleY = some (0.1 : ℚ) ∧
    ((Procedural.blinkSession platformAtZero builtAvatar [.trigger 0, .turn 150]).meshes[2]?).map
      Procedural.Mesh.scaleY = some (1 : ℚ) ∧
    ((Procedural.blinkSession platformAtZero builtAvatar [.trigger 0, .turn 150]).meshes[3]?).map
      Procedural.Mesh.scaleY = some (1 : ℚ) ∧
    (Procedural.blinkSession platformAtZero builtAvatar [.trigger 0, .turn 150]).timers.length
      = 0 :=
  ⟨rfl, rfl, rfl, rfl⟩

/-- In main.js a frame without a model writes nothing, speaking or not: both
    `updateLipSync` and `updateIdleAnimation` return at their first guard. -/
theorem main_frame_without_model [Field K] (env : Env K) (now : Int) (blinkTrial : Bool)
    (dt : K) (s : Main.State K) (h : s.currentVrm = none) :
    Main.animate env now blinkTrial dt s = s := by
  unfold Main.animate Main.updateLipSync Main.updateIdleAnimation
  simp [h]

/-- In main.js no message assigns `currentVrm`. -/
theorem main_message_keeps_model (now : Int) (s : Main.State K) (data : JsValue) :
    (Main.handleVoiceGatewayMessage now s data).state.currentVrm = s.currentVrm := by
  unfold Main.handleVoiceGatewayMessage
  split
  · rfl
  · split <;> rfl
  · rfl
  · rfl
  · rfl
  · split <;> rfl
  · rfl
  · rfl

/-- In main.js no timer callback assigns `currentVrm` when there is no model. -/
theorem main_callback_keeps_no_model [Field K] (env : Env K) (now : Int)
    (a : Main.TimerAction) (s : Main.State K) (h : s.currentVrm = none) :
    (Main.timerCallback env now s a).currentVrm = none := by
  cases a with
  | blinkInterval start =>
    unfold Main.timerCallback Main.blinkCallback
    simp [h]
  | connectWebSocket =>
    unfold Main.timerCallback Main.connectWebSocket
    cases env.webSocketThrows <;> exact h

/-- In main.js a turn of the event loop assigns no model. -/
theorem main_turn_keeps_no_model [Field K] (env : Env K) (now : Int) (s : Main.State K)
    (h : s.currentVrm = none) : (Main.runTimers env now s).currentVrm = none := by
  unfold Main.runTimers
  generalize s.timers.filter (fun t => decide (t.due ≤ now)) = due
  have h0 : ({ s with timers := s.timers.filter (fun t => !decide (t.due ≤ now)) } :
      Main.State K).currentVrm = none := h
  generalize ({ s with timers := s.timers.filter (fun t => !decide (t.due ≤ now)) } :
      Main.State K) = st at h0
  induction due generalizing st with
  | nil => exact h0
  | cons t ts ih =>
    rw [List.foldl_cons]
    exact ih _ (main_callback_keeps_no_model env now t.action st h0)

/-- In main.js nothing that happens on the page after `init()` assigns
    `currentVrm`: when the loader found no model, there is none after any
    sequence of messages, frames, socket events and timers, and so no weight
    of an expression is ever written. -/
theorem main_model_never_loaded [Field K] (env : Env K) (events : List (Main.PageEvent K))
    (s : Main.State K) (h : s.currentVrm = none) :
    (Main.pageRun env s events).currentVrm = none ∧
    Main.aaWeight (Main.pageRun env s events) = none := by
  have key : (Main.pageRun env s events).currentVrm = none := by
    unfold Main.pageRun
    induction events generalizing s with
    | nil => exact h
    | cons ev evs ih =>
      rw [List.foldl_cons]
      apply ih
      cases ev with
      | message now eventData =>
        show (Main.onmessage now s eventData).state.currentVrm = none
        unfold Main.onmessage
        split
        · exact h
        · rw [main_message_keeps_model]; exact h
      | frame now blinkTrial deltaTime =>
        show (Main.animate env now blinkTrial deltaTime s).currentVrm = none
        rw [main_frame_without_model env now blinkTrial deltaTime s h]; exact h
      | socketOpen => exact h
      | socketClose now => exact h
      | socketError => exact h
      | turn now => exact main_turn_keeps_no_model env now s h
  exact ⟨key, by simp [Main.aaWeight, key]⟩

/-- The loader of main.js registers a model only when the parsed file carries
    one in `gltf.userData.vrm`: without it the page is left as it was, and the
    placeholder is built on an error only. -/
theorem main_load_without_plugin (ui : Ui) :
    (Main.loadVRMModel (.parsed none) (Main.initialState ui : Main.State K))
      = Main.initialState ui ∧
    (Main.loadVRMModel .failed (Main.initialState ui : Main.State K)).currentVrm = none ∧
    (Main.loadVRMModel .failed (Main.initialState ui : Main.State K)).ui.loadingHidden = true :=
  ⟨rfl, rfl, rfl⟩

end Properties

end MeetingAvatar
